import Mathlib

/-!
Verification of the schema-adaptive query engine of the sfhbot repository.

The TypeScript sources are shallowly embedded as executable Lean functions:

* `QueryValidationService.ts` — input sanitization, error classification,
  retry delays (`sanitizeSearchTermL`, `validateSearchInput`,
  `classifyError`, `isRecoverableError`, `getRetryDelay`).
* `SchemaIntrospector.ts` — column classification, schema caching,
  relevance scoring (`searchableColumnsOf`, `getSchema`,
  `findRelevantTables`).
* `DynamicQueryBuilder.ts` — the per-table strategy cascade
  (`searchTable`, `executeSearch`).
* `ImprovedSmartQueryService` (services file) — orchestration
  (`executeSearchWithRetry`, `combineQueryResults`, `smartSearch`).

JavaScript strings are modelled as `List Char`; `String.replace` with a
global regex over fixed substrings is modelled by the recursive removal
functions below, which scan left to right and continue after each match,
exactly as the JS engine does.  Wall-clock values (`Date.now()`,
`new Date()` timestamps) are modelled as explicit `Nat` parameters or as
`0` where no claim depends on them.
-/

/-! ## JS string primitives -/

/-- Characters removed by `String.prototype.trim` (ASCII fragment; the
sanitizer claims only concern character removal, so the exact whitespace
set is immaterial). -/
def jsWhitespace : List Char := [' ', '\t', '\n', '\r', '\x0b', '\x0c']

/-- `s.trim()` on a character list. -/
def jsTrim (l : List Char) : List Char :=
  ((l.dropWhile (jsWhitespace.contains ·)).reverse.dropWhile
    (jsWhitespace.contains ·)).reverse

/-- `s.replace(/[c...]/g, '')` for a character class: drop every
occurrence of any listed character. -/
def removeChars (bad : List Char) (l : List Char) : List Char :=
  l.filter (fun c => !(bad.contains c))

/-- `s.replace(/ab/g, '')` for a fixed two-character pattern: scan left to
right, drop each match and resume scanning after it (no rescanning of the
already-produced output, as in JS `replace`). -/
def removePair (a b : Char) : List Char → List Char
  | [] => []
  | [c] => [c]
  | c₁ :: c₂ :: rest =>
    if c₁ = a ∧ c₂ = b then removePair a b rest
    else c₁ :: removePair a b (c₂ :: rest)

theorem removePair_sublist (a b : Char) : (l : List Char) →
    (removePair a b l).Sublist l
  | [] => by simp [removePair]
  | [c] => by simp [removePair]
  | c₁ :: c₂ :: rest => by
    rw [removePair]
    split
    · exact ((removePair_sublist a b rest).trans
        (List.sublist_cons_self c₂ rest)).trans
        (List.sublist_cons_self c₁ (c₂ :: rest))
    · exact (removePair_sublist a b (c₂ :: rest)).cons₂ c₁

theorem mem_of_mem_removePair {a b c : Char} {l : List Char}
    (h : c ∈ removePair a b l) : c ∈ l :=
  (removePair_sublist a b l).subset h

/-! ## QueryValidationService: sanitization -/

/-- `QueryValidationService.sanitizeSearchTerm` (QueryValidationService.ts
lines 182–195): trim, strip the character class `['"\\`;]`, then the
two-character markers `--`, `/*`, `*/`, then null bytes, finally truncate
to 100 characters. -/
def sanitizeSearchTermL (l : List Char) : List Char :=
  ((((removePair '*' '/'
      (removePair '/' '*'
        (removePair '-' '-'
          (removeChars ['\'', '"', '\\', '`', ';'] (jsTrim l))))).filter
            (fun c => c ≠ Char.ofNat 0))).take 100)

/-- String wrapper of `sanitizeSearchTermL`. -/
def sanitizeSearchTerm (s : String) : String :=
  ⟨sanitizeSearchTermL s.data⟩

/-! ## QueryValidationService: validateSearchInput -/

/-- Warnings pushed by `validateSearchInput`, modelled as tags (the JS
code pushes interpolated strings). -/
inductive ValidationWarning where
  | longTermsTruncated (n : Nat)
  | tooManyTerms
  | queryTypeNotString
  deriving DecidableEq, Repr

/-- Errors pushed by `validateSearchInput`, modelled as tags. -/
inductive ValidationError where
  | termsNotArray
  | atLeastOneTerm
  | noValidTermsAfterSanitization
  deriving DecidableEq, Repr

/-- The result record of `validateSearchInput`; `sanitizedInput` is the
`{searchTerms, queryType}` object, absent on the invalid early returns. -/
structure ValidationOutcome where
  isValid : Bool
  errors : List ValidationError
  warnings : List ValidationWarning
  sanitizedInput : Option (List String × String)
  deriving DecidableEq, Repr

/-- `s.toLowerCase()` on a character list. -/
def lowerL (l : List Char) : List Char := l.map Char.toLower

/-- `s.toLowerCase()` on a string. -/
def lowerStr (s : String) : String := ⟨lowerL s.data⟩

/-- The `sanitizedTerms` const of `validateSearchInput` (lines 44–47):
drop non-strings and blank strings, sanitize, drop empty results. -/
def sanitizedTermsOf (terms : List String) : List String :=
  ((terms.filter (fun t => (jsTrim t.data).length > 0)).map
    sanitizeSearchTerm).filter (fun t => t.length > 0)

/-- The `longTerms` const of `validateSearchInput` (line 56). -/
def longTermsOf (terms : List String) : List String :=
  (sanitizedTermsOf terms).filter (fun t => t.length > 100)

/-- `QueryValidationService.validateSearchInput` (lines 27–80).  The
`Array.isArray` / `typeof` guards are vacuous in the typed embedding
(`terms : List String`, `queryType : Option String`), so the
`termsNotArray` error and the `queryTypeNotString` warning branches are
never taken here, exactly as for well-typed JS callers. -/
def validateSearchInput (terms : List String) (queryType : Option String) :
    ValidationOutcome :=
  if terms.length = 0 then
    { isValid := false, errors := [.atLeastOneTerm], warnings := [],
      sanitizedInput := none }
  else if (sanitizedTermsOf terms).length = 0 then
    { isValid := false, errors := [.noValidTermsAfterSanitization],
      warnings := [], sanitizedInput := none }
  else
    let w₁ : List ValidationWarning :=
      if (longTermsOf terms).length > 0 then
        [.longTermsTruncated (longTermsOf terms).length]
      else []
    let w₂ : List ValidationWarning :=
      if (sanitizedTermsOf terms).length > 10 then [.tooManyTerms] else []
    { isValid := true, errors := [], warnings := w₁ ++ w₂,
      sanitizedInput := some ((sanitizedTermsOf terms).take 10,
        match queryType with
        | some q => ⟨jsTrim (lowerL q.data)⟩
        | none => "general") }

/-! ## QueryValidationService: error classification and retry policy -/

/-- `hay.includes(needle)` (JS substring containment). -/
def strContains (hay needle : String) : Bool :=
  decide (needle.data <:+: hay.data)

/-- The `QueryError.type` taxonomy. -/
inductive QErrType where
  | database
  | validation
  | permission
  | timeout
  | network
  deriving DecidableEq, Repr

/-- `QueryError` (QueryValidationService.ts lines 13–20).  The
`originalError` and `timestamp : Date` fields are wall-clock / identity
data that no claim depends on and are omitted from the pure embedding. -/
structure QueryErrorL where
  type : QErrType
  message : String
  tableName : Option String := none
  queryCtx : Option String := none
  deriving DecidableEq, Repr

/-- A raw backend failure as observed by `classifyError`: an object that
may carry a PostgreSQL error `code` and/or a `message`. -/
structure JsErr where
  code : Option String := none
  message : Option String := none
  deriving DecidableEq, Repr

/-- `QueryValidationService.classifyError` (lines 200–303). -/
def classifyError (e : JsErr) (ctxTable : Option String := none)
    (ctxQuery : Option String := none) : QueryErrorL :=
  match e.code with
  | some c =>
    if c = "42P01" then
      { type := .database,
        message := "Table '" ++ ctxTable.getD "unknown" ++ "' does not exist",
        tableName := ctxTable }
    else if c = "42703" then
      { type := .database,
        message := "Column does not exist in table '" ++
          ctxTable.getD "unknown" ++ "'",
        tableName := ctxTable }
    else if c = "42501" then
      { type := .permission,
        message := "Insufficient permissions to access '" ++
          ctxTable.getD "resource" ++ "'",
        tableName := ctxTable }
    else if c = "57014" then
      { type := .timeout, message := "Query was canceled due to timeout",
        queryCtx := ctxQuery }
    else if c = "08000" ∨ c = "08003" ∨ c = "08006" then
      { type := .network, message := "Database connection failed" }
    else
      { type := .database,
        message := "Database error: " ++ (e.message.getD "Unknown error"),
        tableName := ctxTable, queryCtx := ctxQuery }
  | none =>
    match e.message with
    | some m =>
      if strContains m "permission" then
        { type := .permission, message := "Permission denied: " ++ m }
      else if strContains m "timeout" ∨ strContains m "timed out" then
        { type := .timeout, message := "Request timed out: " ++ m }
      else if strContains m "network" ∨ strContains m "connection" then
        { type := .network, message := "Network error: " ++ m }
      else
        { type := .database, message := m,
          tableName := ctxTable, queryCtx := ctxQuery }
    | none =>
      { type := .database, message := "An unknown error occurred",
        tableName := ctxTable, queryCtx := ctxQuery }

/-- `QueryValidationService.generateUserFriendlyMessage` (lines 308–331). -/
def generateUserFriendlyMessage (qe : QueryErrorL) : String :=
  match qe.type with
  | .database =>
    if strContains qe.message "does not exist" then
      "The requested information could not be found in our database. Please try a different search term."
    else
      "We encountered a database issue while searching. Please try again in a moment."
  | .permission =>
    "Access to this information is restricted. Please contact support if you believe this is an error."
  | .timeout =>
    "Your search is taking longer than expected. Please try with more specific search terms."
  | .network =>
    "We're having trouble connecting to our database. Please check your connection and try again."
  | .validation => qe.message

/-- `QueryValidationService.isRecoverableError` (lines 336–354). -/
def isRecoverableError (qe : QueryErrorL) : Bool :=
  match qe.type with
  | .timeout | .network => true
  | .database =>
      strContains qe.message "connection" || strContains qe.message "timeout"
  | .permission | .validation => false

/-- `QueryValidationService.getRetryDelay` (lines 359–377): zero for
non-recoverable errors, exponential backoff for `timeout`, linear for
`network`, and the 1 s base delay for the remaining (recoverable
`database`) errors. -/
def getRetryDelay (qe : QueryErrorL) (attemptNumber : Nat) : Nat :=
  if ¬ isRecoverableError qe then 0
  else
    match qe.type with
    | .timeout => min (1000 * 2 ^ attemptNumber) 30000
    | .network => min (1000 * attemptNumber) 30000
    | _ => 1000

/-! ## SchemaIntrospector: data model and column classification -/

/-- `ColumnInfo` (SchemaIntrospector.ts lines 7–13). -/
structure ColumnInfo where
  column_name : String
  data_type : String
  is_nullable : String := "YES"
  column_default : Option String := none
  ordinal_position : Nat := 0
  deriving DecidableEq, Repr

/-- `TableSchema` (lines 15–21). -/
structure TableSchemaL where
  table_name : String
  columns : List ColumnInfo
  searchableColumns : List String
  primaryKey : Option String := none
  hasFullText : Bool
  deriving DecidableEq, Repr

/-- `DatabaseSchema` (lines 23–26); the `Map` iterates in insertion
order, modelled as an association list, and `lastUpdated : Date` is
modelled as epoch milliseconds. -/
structure DatabaseSchemaL where
  tables : List (String × TableSchemaL)
  lastUpdated : Nat
  deriving DecidableEq, Repr

/-- The type list of the searchable-column filter (line 110). -/
def textLikeTypes : List String :=
  ["text", "character varying", "varchar", "json", "jsonb"]

/-- The searchable-column predicate of `getTableSchema` (lines 108–116):
text-like declared type, or a name containing one of `title`, `name`,
`content`, `description`, `excerpt`. -/
def isSearchableColumn (col : ColumnInfo) : Bool :=
  textLikeTypes.contains (lowerStr col.data_type) ||
  strContains (lowerStr col.column_name) "title" ||
  strContains (lowerStr col.column_name) "name" ||
  strContains (lowerStr col.column_name) "content" ||
  strContains (lowerStr col.column_name) "description" ||
  strContains (lowerStr col.column_name) "excerpt"

/-- The `searchableColumns` selection of `getTableSchema`. -/
def searchableColumnsOf (cols : List ColumnInfo) : List String :=
  (cols.filter isSearchableColumn).map (·.column_name)

/-- The primary-key detection of `getTableSchema` (lines 120–124). -/
def primaryKeyOf (cols : List ColumnInfo) : Option String :=
  (cols.find? (fun col =>
    col.column_name = "id" ||
    (col.column_default.map (fun d => strContains d "uuid_generate")).getD
      false ||
    (col.column_default.map (fun d => strContains d "nextval")).getD
      false)).map (·.column_name)

/-- The full-text detection of `getTableSchema` (lines 127–130); note
that the `searchableColumns.length > 2` test sits inside `columns.some`,
so a table with no columns is never full-text capable. -/
def hasFullTextOf (cols : List ColumnInfo) (searchable : List String) :
    Bool :=
  cols.any (fun col => col.data_type = "tsvector" || searchable.length > 2)

/-- The `TableSchema` value built by a successful `getTableSchema`
(lines 132–138). -/
def mkTableSchema (tableName : String) (cols : List ColumnInfo) :
    TableSchemaL :=
  { table_name := tableName, columns := cols,
    searchableColumns := searchableColumnsOf cols,
    primaryKey := primaryKeyOf cols,
    hasFullText := hasFullTextOf cols (searchableColumnsOf cols) }

/-! ## SchemaIntrospector: getSchema (cache + discovery) -/

/-- `cacheExpiry` (line 31): 5 minutes in milliseconds. -/
def cacheExpiryMs : Nat := 5 * 60 * 1000

/-- The cache-hit test of `getSchema` (lines 41–45). -/
def schemaCacheValid (cache : Option DatabaseSchemaL) (forceRefresh : Bool)
    (now : Nat) : Bool :=
  match cache with
  | some c => !forceRefresh && now - c.lastUpdated < cacheExpiryMs
  | none => false

/-- The discovery loop of `getSchema` (lines 64–69): per-table
introspection failures (`getTableSchema` returning `null`) skip the
table. -/
def introspectAll (names : List String)
    (introspect : String → Option (List ColumnInfo)) :
    List (String × TableSchemaL) :=
  names.filterMap (fun n => (introspect n).map (fun cols =>
    (n, mkTableSchema n cols)))

/-- `SchemaIntrospector.getSchema` (lines 40–87) as a pure state
transition.  Inputs: the flag, the current time, the cached snapshot, the
catalog-query outcome (`.error` = the thrown "Failed to fetch tables"
path) and the per-table column-query outcomes.  Output: the returned
schema and the new value of `schemaCache` — on total catalog failure the
code returns a *fresh empty* schema and leaves the cache untouched. -/
def getSchema (forceRefresh : Bool) (now : Nat)
    (cache : Option DatabaseSchemaL)
    (catalog : Except String (List String))
    (introspect : String → Option (List ColumnInfo)) :
    DatabaseSchemaL × Option DatabaseSchemaL :=
  match cache with
  | some c =>
    if !forceRefresh && now - c.lastUpdated < cacheExpiryMs then (c, some c)
    else
      match catalog with
      | .error _ => ({ tables := [], lastUpdated := now }, some c)
      | .ok names =>
        let s : DatabaseSchemaL :=
          { tables := introspectAll names introspect, lastUpdated := now }
        (s, some s)
  | none =>
    match catalog with
    | .error _ => ({ tables := [], lastUpdated := now }, none)
    | .ok names =>
      let s : DatabaseSchemaL :=
        { tables := introspectAll names introspect, lastUpdated := now }
      (s, some s)

/-- `Map.get` on the embedded schema: first binding wins (table names are
unique keys in the source `Map`). -/
def lookupTable (schema : DatabaseSchemaL) (tableName : String) :
    Option TableSchemaL :=
  (schema.tables.find? (fun p => p.1 = tableName)).map (·.2)

/-- The fallback column-name patterns of `getSearchableColumns`
(line 231). -/
def commonPatterns : List String :=
  ["title", "name", "content", "description", "text", "body"]

/-- `SchemaIntrospector.getSearchableColumns` (lines 219–237), given the
(cached) schema. -/
def getSearchableColumns (schema : DatabaseSchemaL) (tableName : String) :
    List String :=
  match lookupTable schema tableName with
  | none => []
  | some t =>
    if t.searchableColumns.length > 0 then t.searchableColumns
    else
      (t.columns.filter (fun col =>
        commonPatterns.any (fun p =>
          strContains (lowerStr col.column_name) p))).map (·.column_name)

/-! ## Stable sort (ECMAScript `Array.prototype.sort`)

ES2019 requires `sort` to be stable; with a consistent comparator the
result is uniquely determined: an element `x` precedes `y` iff
`cmp x y < 0`, or `cmp x y = 0` and `x` precedes `y` in the input.  A
stable insertion sort realises exactly this order. -/

/-- Insert `x` (an element earlier in the input than everything in the
already-sorted tail) before the first element `y` with `cmp x y ≤ 0`. -/
def jsInsert (cmp : α → α → Int) (x : α) : List α → List α
  | [] => [x]
  | y :: ys => if cmp x y > 0 then y :: jsInsert cmp x ys else x :: y :: ys

/-- `arr.sort(cmp)` for a consistent comparator. -/
def jsSort (cmp : α → α → Int) (l : List α) : List α :=
  l.foldr (jsInsert cmp) []

/-! ## SchemaIntrospector: findRelevantTables -/

/-- The category keyword map of `findRelevantTables` (lines 154–161). -/
def tableKeywords : List (String × List String) :=
  [("knowledge", ["knowledge", "document", "content", "article"]),
   ("chat", ["chat", "message", "conversation", "log"]),
   ("user", ["user", "session", "profile", "account"]),
   ("piano", ["piano", "instrument", "music"]),
   ("news", ["news", "article", "post", "content"]),
   ("event", ["event", "activity", "activation", "schedule"])]

/-- The content-word list of the per-column bonus (line 189). -/
def contentWords : List String :=
  ["title", "content", "description", "text", "body", "excerpt"]

/-- The relevance score of one table (lines 166–197): +10 per category
whose keywords match the query and the table name, +2 per searchable
column, +5 for full-text capability, +3 per searchable column containing
a content word. -/
def scoreTable (queryType : String) (terms : List String)
    (tableName : String) (ts : TableSchemaL) : Nat :=
  (tableKeywords.map (fun p =>
    if (strContains (lowerStr queryType) p.1 ||
        terms.any (fun t => p.2.contains (lowerStr t))) &&
       p.2.any (fun kw => strContains (lowerStr tableName) kw) then 10
    else 0)).sum +
  ts.searchableColumns.length * 2 +
  (if ts.hasFullText then 5 else 0) +
  (ts.searchableColumns.filter (fun col =>
    contentWords.any (fun w => strContains (lowerStr col) w))).length * 3

/-- The `tableScores` map of `findRelevantTables` (lines 164–198) in
`Map` insertion order: tables scoring 0 are not entered. -/
def scoredTables (queryType : String) (terms : List String)
    (tables : List (String × TableSchemaL)) : List (String × Nat) :=
  tables.filterMap (fun p =>
    let s := scoreTable queryType terms p.1 p.2
    if s > 0 then some (p.1, s) else none)

/-- The comparator `([, a], [, b]) => b - a` of line 202. -/
def scoreCmp (a b : String × Nat) : Int := (b.2 : Int) - (a.2 : Int)

/-- The scored, sorted table list of `findRelevantTables` (lines
200–203): descending score, stable, i.e. ties keep the `Map` insertion
order. -/
def rankedTables (queryType : String) (terms : List String)
    (tables : List (String × TableSchemaL)) : List (String × Nat) :=
  jsSort scoreCmp (scoredTables queryType terms tables)

/-- `SchemaIntrospector.findRelevantTables` (lines 149–205), given the
discovered schema tables in `Map` insertion order. -/
def findRelevantTables (queryType : String) (terms : List String)
    (tables : List (String × TableSchemaL)) : List String :=
  ((rankedTables queryType terms tables).take 5).map (·.1)

/-! ## DynamicQueryBuilder: rows, strategies, the cascade -/

/-- A row of an unknown table: an ordered field map of column name to
(string-rendered) value. -/
structure Row where
  fields : List (String × String)
  deriving DecidableEq, Repr

/-- Field access (`row.col` / SQL column reference). -/
def Row.getField (r : Row) (name : String) : Option String :=
  (r.fields.find? (fun p => p.1 = name)).map (·.2)

/-- The `created_at` value used by `addRecencyOrder` (lines 308–320);
rows without a numeric `created_at` sort as 0. -/
def Row.createdAt (r : Row) : Nat :=
  ((r.getField "created_at").bind String.toNat?).getD 0

/-- `ORDER BY created_at DESC` (the `addRecencyOrder` effect on the
datastore), a stable descending sort. -/
def orderRecent (rows : List Row) : List Row :=
  jsSort (fun a b => (b.createdAt : Int) - (a.createdAt : Int)) rows

/-- `SearchStrategy` (DynamicQueryBuilder.ts lines 19–25). -/
structure SearchStrategyL where
  useExactMatch : Bool
  useFuzzySearch : Bool
  useFullTextSearch : Bool
  maxResults : Nat
  prioritizeRecent : Bool
  deriving DecidableEq, Repr

/-- `getDefaultStrategy` (lines 398–406). -/
def getDefaultStrategy : SearchStrategyL :=
  { useExactMatch := true, useFuzzySearch := true,
    useFullTextSearch := false, maxResults := 20,
    prioritizeRecent := true }

/-- `getOptimizedStrategy` (lines 411–434). -/
def getOptimizedStrategy (queryType : String) : SearchStrategyL :=
  let base := getDefaultStrategy
  let q := lowerStr queryType
  if q = "news_search" ∨ q = "article_search" then
    { base with prioritizeRecent := true, maxResults := 15 }
  else if q = "knowledge_search" ∨ q = "document_search" then
    { base with useFullTextSearch := true, maxResults := 10 }
  else if q = "user_search" ∨ q = "profile_search" then
    { base with
        useExactMatch := true, useFuzzySearch := false, maxResults := 5 }
  else if q = "broad_search" ∨ q = "general_search" then
    { base with maxResults := 25, prioritizeRecent := false }
  else base

/-- ECMAScript static semantics for a `ClassRange` `A - B` inside a
regular-expression character class (ECMA-262, Static Semantics: Early
Errors, ClassRange): the pattern is a Syntax Error when the code point
of the first atom strictly exceeds that of the second.  A
regular-expression *literal* violating it is an early error: the
enclosing script or module fails to parse, so none of its code ever
evaluates. -/
def jsClassRangeSyntaxError (a b : Char) : Bool := b.toNat < a.toNat

/-- The two class atoms of the literal `[;--]` in
`DynamicQueryBuilder.sanitizeSearchTerm` (DynamicQueryBuilder.ts
line 328): inside a character class, `;--` parses as ClassAtom `;`,
dash, ClassAtom `-` — the range from `;` down to `-`. -/
def dqbSanitizerClassRange : Char × Char := (';', '-')

/-- The behaviour `DynamicQueryBuilder.sanitizeSearchTerm`
(lines 325–331) *intends*: strip quotes and backslashes, strip `;` and
`-`, truncate to 100, then trim.  The source cannot compute this — its
class `[;--]` is an out-of-order range, an early SyntaxError that keeps
the whole `DynamicQueryBuilder` module from evaluating (claim C4's code
bug, settled via `jsClassRangeSyntaxError` above).  This total function
stands in for the intended behaviour only so that the cascade skeleton
(`searchTable`, `executeSearch`) is typeable; no claim is confirmed
through it. -/
def dqbIntendedSanitize (s : String) : String :=
  ⟨jsTrim ((removeChars [';', '-']
    (removeChars ['\'', '"', '\\'] s.data)).take 100)⟩

/-- The `or(col.eq."term", …)` filter of `executeExactSearch`
(line 172): some searchable column equals the sanitized term exactly
(a row lacking the column never matches). -/
def rowMatchesExact (cols : List String) (term : String) (r : Row) : Bool :=
  cols.any (fun col => r.getField col = some (dqbIntendedSanitize term))

/-- The `or(col.ilike."%term%", …)` filter of `executeFuzzySearch`
(line 210): case-insensitive containment of the sanitized term in some
searchable column (exact for wildcard-free terms). -/
def rowMatchesFuzzy (cols : List String) (term : String) (r : Row) : Bool :=
  cols.any (fun col =>
    match r.getField col with
    | some v => strContains (lowerStr v) (lowerStr (dqbIntendedSanitize term))
    | none => false)

/-- One datastore query of the term loops: filter, apply recency order
when requested (PostgREST applies ORDER BY before LIMIT), then LIMIT. -/
def runTableQuery (db : List Row) (match_ : Row → Bool)
    (strat : SearchStrategyL) : List Row :=
  let filtered := db.filter match_
  (if strat.prioritizeRecent then orderRecent filtered else filtered).take
    strat.maxResults

/-- `executeExactSearch` (lines 165–197): try each term in order, return
the first non-empty result set. -/
def executeExactSearch (db : List Row) (cols : List String)
    (strat : SearchStrategyL) : List String → List Row
  | [] => []
  | t :: ts =>
    let d := runTableQuery db (rowMatchesExact cols t) strat
    if d.length > 0 then d else executeExactSearch db cols strat ts

/-- `executeFuzzySearch` (lines 202–235). -/
def executeFuzzySearch (db : List Row) (cols : List String)
    (strat : SearchStrategyL) : List String → List Row
  | [] => []
  | t :: ts =>
    let d := runTableQuery db (rowMatchesFuzzy cols t) strat
    if d.length > 0 then d else executeFuzzySearch db cols strat ts

/-- The word tokenization of `executePartialSearch` (lines 247–249):
lower-case, split on whitespace, keep words longer than 2 characters. -/
def partialWords (terms : List String) : List String :=
  terms.flatMap (fun t =>
    ((lowerStr t).split (fun c => jsWhitespace.contains c)).filter
      (fun w => w.length > 2))

/-- `executePartialSearch` (lines 240–278): each extracted word tried
independently as a fuzzy match. -/
def executePartialSearch (db : List Row) (cols : List String)
    (strat : SearchStrategyL) (terms : List String) : List Row :=
  let rec go : List String → List Row
    | [] => []
    | w :: ws =>
      let d := runTableQuery db (rowMatchesFuzzy cols w) strat
      if d.length > 0 then d else go ws
  go (partialWords terms)

/-- `executeBroadSearch` (lines 283–303): no filter, recency order, limit
`min(maxResults, 10)`. -/
def executeBroadSearch (db : List Row) (strat : SearchStrategyL) :
    List Row :=
  (orderRecent db).take (min strat.maxResults 10)

/-- `QueryResult` (DynamicQueryBuilder.ts lines 7–14);
`executionTimeMs` is wall-clock and is reported as 0 by the embedded
`searchTable`. -/
structure QueryResultL where
  data : List Row
  tableName : String
  searchTermsUsed : List String
  columnsSearched : List String
  executionTimeMs : Nat
  error : Option String := none
  deriving DecidableEq, Repr

/-- `DynamicQueryBuilder.searchTable` (lines 101–160): empty-column
early-out, then the fixed cascade exact → fuzzy → partial → broad.
`index 0` is skipped unless `useExactMatch`, `index 1` unless
`useFuzzySearch`; the first strategy returning ≥ 1 row wins.  In the pure
datastore model a query never throws, so the per-strategy `catch`
(continue with the next strategy) has no inhabited error path. -/
def searchTable (tableName : String) (searchableColumns : List String)
    (db : List Row) (searchTerms : List String)
    (strat : SearchStrategyL) : QueryResultL :=
  if searchableColumns.length = 0 then
    { data := [], tableName := tableName, searchTermsUsed := searchTerms,
      columnsSearched := [], executionTimeMs := 0,
      error := some ("No searchable columns found in table " ++ tableName) }
  else
    let mkHit (d : List Row) : QueryResultL :=
      { data := d, tableName := tableName, searchTermsUsed := searchTerms,
        columnsSearched := searchableColumns, executionTimeMs := 0 }
    let exact :=
      if strat.useExactMatch then
        executeExactSearch db searchableColumns strat searchTerms
      else []
    if exact.length > 0 then mkHit exact
    else
      let fuzzy :=
        if strat.useFuzzySearch then
          executeFuzzySearch db searchableColumns strat searchTerms
        else []
      if fuzzy.length > 0 then mkHit fuzzy
      else
        let partial_ := executePartialSearch db searchableColumns strat
          searchTerms
        if partial_.length > 0 then mkHit partial_
        else
          let broad := executeBroadSearch db strat
          if broad.length > 0 then mkHit broad
          else
            { data := [], tableName := tableName,
              searchTermsUsed := searchTerms,
              columnsSearched := searchableColumns, executionTimeMs := 0 }

/-- `DynamicQueryBuilder.executeSearch` (lines 43–96): resolve relevant
tables, search each, keep only results with at least one row; a table
whose search throws would be recorded with an `error` field (unreachable
in the pure model), and the outer catch makes the function total — it
never rejects. -/
def executeSearch (schemaTables : List (String × TableSchemaL))
    (dbOf : String → List Row) (searchTerms : List String)
    (queryType : String) (strat : SearchStrategyL) : List QueryResultL :=
  let relevantTables := findRelevantTables queryType searchTerms schemaTables
  relevantTables.filterMap (fun tn =>
    let r := searchTable tn
      (getSearchableColumns
        { tables := schemaTables, lastUpdated := 0 } tn)
      (dbOf tn) searchTerms strat
    if r.data.length > 0 then some r else none)

/-! ## ImprovedSmartQueryService: retry loop -/

/-- `this.retryAttempts` (services file line 333). -/
def retryAttempts : Nat := 3

/-- The observable outcome of `executeSearchWithRetry`: the value or the
rethrown exception, the attempt number at which the loop stopped, and
the delays slept (in order) between attempts. -/
structure RetryOutcome where
  result : Except JsErr (List QueryResultL)
  attempts : Nat
  delays : List Nat
  deriving Repr

/-- `ImprovedSmartQueryService.executeSearchWithRetry` (lines 510–534)
over an abstract per-attempt behaviour of `executeSearch` (which may in
principle reject): a thrown error is classified; if recoverable and
fewer than `retryAttempts` attempts were made, sleep `getRetryDelay` and
recurse, otherwise rethrow.  A *returned* result — whatever per-table
errors its records carry — is passed through unchanged.  (The
`!this.queryBuilder` guard is omitted: `smartSearch` only reaches this
call when the builder exists.) -/
def executeSearchWithRetry
    (search : Nat → Except JsErr (List QueryResultL))
    (attemptNumber : Nat) : RetryOutcome :=
  match search attemptNumber with
  | .ok rs => { result := .ok rs, attempts := attemptNumber, delays := [] }
  | .error e =>
    let queryError := classifyError e
    if isRecoverableError queryError ∧ attemptNumber < retryAttempts then
      let rest := executeSearchWithRetry search (attemptNumber + 1)
      { result := rest.result, attempts := rest.attempts,
        delays := getRetryDelay queryError attemptNumber :: rest.delays }
    else
      { result := .error e, attempts := attemptNumber, delays := [] }
  termination_by retryAttempts - attemptNumber
  decreasing_by
    rename_i h
    omega

/-! ## ImprovedSmartQueryService: combineQueryResults -/

/-- JS truthiness of `item.f` for a string field: present and
non-empty. -/
def jsTruthyField (r : Row) (name : String) : Option String :=
  match r.getField name with
  | some v => if v = "" then none else some v
  | none => none

/-- `JSON.stringify(item)` for a flat string-field row. -/
def jsonStringifyRow (r : Row) : String :=
  "\x7b" ++
    String.intercalate ","
      (r.fields.map (fun p => "\"" ++ p.1 ++ "\":\"" ++ p.2 ++ "\"")) ++
  "\x7d"

/-- The deduplication identifier of `combineQueryResults` (line 560):
`item.id || item.uuid || JSON.stringify(item).substring(0, 50)`. -/
def dedupKey (r : Row) : String :=
  match jsTruthyField r "id" with
  | some v => v
  | none =>
    match jsTruthyField r "uuid" with
    | some v => v
    | none => (jsonStringifyRow r).take 50

/-- A combined row with its `_metadata` provenance (lines 565–572). -/
structure CombinedItem where
  row : Row
  source_table : String
  search_terms_used : List String
  execution_time_ms : Nat
  deriving DecidableEq, Repr

/-- JS falsiness of the optional `error` string (`!qr.error`). -/
def jsFalsyOpt : Option String → Bool
  | none => true
  | some s => s = ""

/-- The comparator of the pre-merge sort (lines 548–555): more rows
first, then faster execution first. -/
def cmpQueryResults (a b : QueryResultL) : Int :=
  if a.data.length ≠ b.data.length then
    (b.data.length : Int) - (a.data.length : Int)
  else (a.executionTimeMs : Int) - (b.executionTimeMs : Int)

/-- The pushed row annotated with `_metadata` provenance (lines
565–572). -/
def mkCombinedItem (qr : QueryResultL) (item : Row) : CombinedItem :=
  { row := item, source_table := qr.tableName,
    search_terms_used := qr.searchTermsUsed,
    execution_time_ms := qr.executionTimeMs }

/-- The inner item loop of `combineQueryResults` (lines 557–579): a seen
identifier leaves the accumulator unchanged, an unseen one is recorded
and its row pushed with provenance; after each item the 25-result break
is checked (it also breaks the outer loop, reported by the flag). -/
def combineItems (qr : QueryResultL) :
    List Row → List String → List CombinedItem →
    List String × List CombinedItem × Bool
  | [], seen, acc => (seen, acc, false)
  | item :: rest, seen, acc =>
    if seen.contains (dedupKey item) then
      if acc.length ≥ 25 then (seen, acc, true)
      else combineItems qr rest seen acc
    else
      if (acc ++ [mkCombinedItem qr item]).length ≥ 25 then
        (dedupKey item :: seen, acc ++ [mkCombinedItem qr item], true)
      else combineItems qr rest (dedupKey item :: seen)
        (acc ++ [mkCombinedItem qr item])

/-- The outer result loop of `combineQueryResults`. -/
def combineOuter :
    List QueryResultL → List String → List CombinedItem →
    List CombinedItem
  | [], _, acc => acc
  | qr :: rest, seen, acc =>
    let step := combineItems qr qr.data seen acc
    if step.2.2 then step.2.1 else combineOuter rest step.1 step.2.1

/-- `ImprovedSmartQueryService.combineQueryResults` (lines 539–582):
drop per-table results that are empty or carry an error, sort by row
count then speed, then merge with deduplication and the 25-row cap. -/
def combineQueryResults (queryResults : List QueryResultL) :
    List CombinedItem :=
  if queryResults.length = 0 then []
  else
    combineOuter
      (jsSort cmpQueryResults
        (queryResults.filter (fun qr =>
          qr.data.length > 0 && jsFalsyOpt qr.error)))
      [] []

/-! ## ImprovedSmartQueryService: smartSearch -/

/-- `QueryAnalysis` (services file lines 315–320); `confidence` is a JS
float that no claim inspects, modelled coarsely in thousandths. -/
structure QueryAnalysis where
  type : String
  reasoning : String
  searchTerms : List String
  confidence : Nat := 500
  deriving DecidableEq, Repr

/-- The entries of the `warnings` array of a `SmartSearchResult`,
modelled as tags over the embedded warning/error values. -/
inductive WarnItem where
  | fromValidation (w : ValidationWarning)
  | fromValidationError (e : ValidationError)
  | errorOccurred (message : String)
  | databaseUnavailable
  deriving DecidableEq, Repr

/-- `SmartSearchResult` (lines 304–313); `executionTimeMs` is wall-clock
and reported as 0 where set. -/
structure SmartSearchResultL where
  results : List CombinedItem
  naturalResponse : String
  dataUsed : Bool
  reasoning : String
  queryType : String
  executionTimeMs : Option Nat := none
  tablesSearched : Option (List String) := none
  warnings : Option (List WarnItem) := none
  deriving Repr

/-- `createUnavailableResponse` (lines 696–705). -/
def createUnavailableResponse : SmartSearchResultL :=
  { results := [],
    naturalResponse := "The database search service is currently unavailable. Please try again later.",
    dataUsed := false, reasoning := "Service unavailable",
    queryType := "error",
    warnings := some [.databaseUnavailable] }

/-- `createValidationErrorResponse` (lines 710–719). -/
def createValidationErrorResponse (errors : List ValidationError) :
    SmartSearchResultL :=
  { results := [],
    naturalResponse := "I had trouble understanding your search request. Please try rephrasing your question.",
    dataUsed := false, reasoning := "Input validation failed",
    queryType := "validation_error",
    warnings := some (errors.map .fromValidationError) }

/-- `generateSearchSuggestions` (lines 732–743). -/
def generateSearchSuggestions (queryType : String) : String :=
  if queryType = "knowledge_search" then
    "Try searching for more general topics or check our main categories."
  else if queryType = "chat_search" then
    "Try looking for specific conversation topics or time periods."
  else
    "Try using different keywords or being more specific in your search."

/-- `createNoResultsResponse` (lines 724–727). -/
def createNoResultsResponse (userQuery : String)
    (analysis : QueryAnalysis) : String :=
  "I searched our database for \"" ++ userQuery ++
    "\" but couldn't find any matching records. " ++
    generateSearchSuggestions analysis.type

/-- `createFallbackResponse` (lines 748–758). -/
def createFallbackResponse (results : List CombinedItem)
    (userQuery : String) : String :=
  if results.length = 0 then
    "I couldn't find any information about \"" ++ userQuery ++
      "\" in our database."
  else
    let count := results.length
    let sources := (results.map (·.source_table)).eraseDups
    let sourceText :=
      if sources.length > 1 then
        "from " ++ toString sources.length ++ " different sources"
      else ""
    "I found " ++ toString count ++ " result" ++
      (if count > 1 then "s" else "") ++ " " ++ sourceText ++
      " related to your query about \"" ++ userQuery ++
      "\". The information includes various records that match your search criteria."

/-- `formatResults` (lines 587–646): its reasoning-collaborator call is
guarded by its own try/catch, and a null/empty completion falls back to
the templated summary — a total function of the collaborator outcome. -/
def formatResults (results : List CombinedItem) (userQuery : String)
    (completion : Except JsErr (Option String)) : String :=
  match completion with
  | .ok (some s) => if s = "" then createFallbackResponse results userQuery
      else s
  | .ok none => createFallbackResponse results userQuery
  | .error _ => createFallbackResponse results userQuery

/-- The behaviours of the external collaborators and the datastore as
seen by one `smartSearch` call: the analysis step (the reasoning
collaborator plus local fallback — `analyzeQuery` — which may itself
throw, e.g. out of `getSchemaSummary`), the per-attempt outcome of
`executeSearch` as a function of the validated terms and query type,
and the summary completion.  `isAvailable` covers the
`!this.isAvailable || !this.supabase || !this.queryBuilder` guard. -/
structure OrchestratorEnv where
  isAvailable : Bool
  analyzeStep : Except JsErr QueryAnalysis
  searchStep : List String → String → Nat → Except JsErr (List QueryResultL)
  formatStep : Except JsErr (Option String)

/-- The body of the `try` block of `smartSearch` (lines 396–434),
propagating any rejection. -/
def smartSearchBody (env : OrchestratorEnv) (userQuery : String) :
    Except JsErr SmartSearchResultL := do
  let analysis ← env.analyzeStep
  let validation := validateSearchInput analysis.searchTerms
    (some analysis.type)
  if !validation.isValid then
    return createValidationErrorResponse validation.errors
  -- the source reads `validation.sanitizedInput!` (non-null assertion):
  -- a valid outcome always carries it
  let sanitized := validation.sanitizedInput.getD ([], "general")
  let retried := executeSearchWithRetry
    (env.searchStep sanitized.1 sanitized.2) 1
  let queryResults ← retried.result
  let combinedResults := combineQueryResults queryResults
  let response :=
    if combinedResults.length > 0 then
      formatResults combinedResults userQuery env.formatStep
    else createNoResultsResponse userQuery analysis
  return {
    results := combinedResults, naturalResponse := response,
    dataUsed := combinedResults.length > 0,
    reasoning := analysis.reasoning, queryType := analysis.type,
    executionTimeMs := some 0,
    tablesSearched := some (queryResults.map (·.tableName)),
    warnings :=
      if validation.warnings.length > 0 then
        some (validation.warnings.map .fromValidation)
      else none }

/-- The name used in the `reasoning: Error: ${queryError.type}`
interpolation. -/
def QErrType.jsName : QErrType → String
  | .database => "database"
  | .validation => "validation"
  | .permission => "permission"
  | .timeout => "timeout"
  | .network => "network"

/-- The catch block of `smartSearch` (lines 435–448). -/
def smartSearchCatch (userQuery : String) (e : JsErr) :
    SmartSearchResultL :=
  let queryError := classifyError e none (some userQuery)
  { results := [],
    naturalResponse := generateUserFriendlyMessage queryError,
    dataUsed := false,
    reasoning := "Error: " ++ queryError.type.jsName,
    queryType := "error", executionTimeMs := some 0,
    warnings := some [.errorOccurred queryError.message] }

/-- `ImprovedSmartQueryService.smartSearch` (lines 388–449), typed as an
`Except` to represent that a JS async function may reject: the
availability guard, the `try` body, and the catch converting any
rejection into a structured failure result. -/
def smartSearch (env : OrchestratorEnv) (userQuery : String) :
    Except JsErr SmartSearchResultL :=
  if !env.isAvailable then .ok createUnavailableResponse
  else
    match smartSearchBody env userQuery with
    | .ok r => .ok r
    | .error e => .ok (smartSearchCatch userQuery e)

/-! ## Claim C1 — sanitization safety -/

/-- Every character of a sanitized term survives from the stage after the
single-character class removal. -/
theorem mem_sanitize_stages {c : Char} {l : List Char}
    (h : c ∈ sanitizeSearchTermL l) :
    c ∈ removeChars ['\'', '"', '\\', '`', ';'] (jsTrim l) ∧
      c ≠ Char.ofNat 0 := by
  unfold sanitizeSearchTermL at h
  have h₁ := List.mem_of_mem_take h
  rw [List.mem_filter] at h₁
  obtain ⟨h₂, hnul⟩ := h₁
  refine ⟨?_, by simpa using hnul⟩
  exact mem_of_mem_removePair (mem_of_mem_removePair
    (mem_of_mem_removePair h₂))

/-- C1, corrected.  The sanitizer's output never contains any of the
*single* characters `'`, `"`, `\`, `;` or a null byte: the character
class `['"\\`;]` is removed first and later passes only delete
characters, and null bytes are removed after every pass that could
reassemble them.  (The multi-character markers `--`, `/*`, `*/` are NOT
always absent — see the counterexample.) -/
theorem sanitize_single_char_safety (l : List Char) :
    '\'' ∉ sanitizeSearchTermL l ∧ '"' ∉ sanitizeSearchTermL l ∧
    '\\' ∉ sanitizeSearchTermL l ∧ ';' ∉ sanitizeSearchTermL l ∧
    Char.ofNat 0 ∉ sanitizeSearchTermL l := by
  refine ⟨fun h => ?_, fun h => ?_, fun h => ?_, fun h => ?_, fun h => ?_⟩
  case _ | _ | _ | _ =>
    obtain ⟨hm, -⟩ := mem_sanitize_stages h
    rw [removeChars, List.mem_filter] at hm
    simp at hm
  case _ =>
    obtain ⟨-, hnul⟩ := mem_sanitize_stages h
    exact hnul rfl

/-- C1, counterexample: the four-character input hyphen, slash, star,
hyphen contains none of the banned substrings' single characters yet
sanitizes to `--` — removing the block-comment opener reassembles the SQL
line-comment marker after the `--` pass already ran, so the claimed
absence of `--` in every output is false. -/
theorem sanitize_reintroduces_comment_marker :
    sanitizeSearchTerm "-/*-" = "--" ∧
      strContains (sanitizeSearchTerm "-/*-") "--" = true := by
  constructor
  · rfl
  · rfl

/-! ## Claim C10 — the long-term-truncation warning is unreachable -/

/-- A sanitized term is at most 100 characters long. -/
theorem sanitizeSearchTerm_length_le (s : String) :
    (sanitizeSearchTerm s).length ≤ 100 := by
  show (sanitizeSearchTermL s.data).length ≤ 100
  unfold sanitizeSearchTermL
  exact List.length_take_le 100 _

/-- C10: for every input, `validateSearchInput` never emits the
"Some search terms are very long and have been truncated" warning —
sanitization truncates each term to 100 characters before the length
check runs, so `longTerms` is always empty. -/
theorem validateSearchInput_no_truncation_warning
    (terms : List String) (queryType : Option String) (n : Nat) :
    ValidationWarning.longTermsTruncated n ∉
      (validateSearchInput terms queryType).warnings := by
  have hlong : longTermsOf terms = [] := by
    rw [longTermsOf, List.filter_eq_nil_iff]
    intro t ht
    have ht' := List.mem_of_mem_filter ht
    obtain ⟨s, -, rfl⟩ := List.mem_map.mp ht'
    simpa using Nat.not_lt.mpr (sanitizeSearchTerm_length_le s)
  unfold validateSearchInput
  dsimp only
  split_ifs with h₀ h₁ h₂ h₃ <;> simp_all [hlong]

/-! ## Claim C7 — retry delay formula -/

/-- C7, counterexample: a `database` error whose message indicates a
connection issue is recoverable, and `getRetryDelay` returns the 1 s base
delay for it — not zero as the claim states for "every other error
(including database errors)". -/
theorem getRetryDelay_database_connection_not_zero :
    getRetryDelay ⟨QErrType.database, "connection refused", none, none⟩ 1
        = 1000 ∧
      (1000 : Nat) ≠ 0 := by
  constructor
  · rfl
  · decide

/-- C7, corrected: `getRetryDelay` is `min(1s·2^attempt, 30s)` for
`timeout`, `min(1s·attempt, 30s)` for `network`, the 1 s base delay for a
*recoverable* `database` error (message containing "connection" or
"timeout"), and zero for every non-recoverable error, for all attempt
numbers. -/
theorem getRetryDelay_formula (qe : QueryErrorL) (n : Nat) :
    getRetryDelay qe n =
      if qe.type = .timeout then min (1000 * 2 ^ n) 30000
      else if qe.type = .network then min (1000 * n) 30000
      else if isRecoverableError qe then 1000 else 0 := by
  rcases qe with ⟨t, m, tn, q⟩
  cases t
  case database =>
    by_cases hc : strContains m "connection" = true <;>
      by_cases ht : strContains m "timeout" = true <;>
        simp [getRetryDelay, isRecoverableError, hc, ht]
  all_goals simp [getRetryDelay, isRecoverableError]

/-! ## Claim C8 — searchable-column classification -/

/-- The column classification as the claim states it (spec predicate for
comparison): text-like type OR name containing one of the seven
substrings `title`, `name`, `content`, `description`, `excerpt`, `body`,
`text`. -/
def claimedSearchable (col : ColumnInfo) : Bool :=
  textLikeTypes.contains (lowerStr col.data_type) ||
  (["title", "name", "content", "description", "excerpt", "body",
    "text"].any (fun w => strContains (lowerStr col.column_name) w))

/-- The classification the code actually implements, as a spec-style
predicate: text-like type OR name containing one of the FIVE substrings
`title`, `name`, `content`, `description`, `excerpt` (`body` and `text`
are absent from `getTableSchema`; they appear only in the
`getSearchableColumns` fallback used when no column classified). -/
def codeSearchable (col : ColumnInfo) : Bool :=
  textLikeTypes.contains (lowerStr col.data_type) ||
  (["title", "name", "content", "description", "excerpt"].any
    (fun w => strContains (lowerStr col.column_name) w))

/-- C8, counterexample: a non-text column named `body` satisfies the
claimed predicate (it contains `body`) yet schema discovery does not
classify it searchable. -/
theorem searchable_body_column_counterexample :
    claimedSearchable ⟨"body", "integer", "YES", none, 0⟩ = true ∧
      searchableColumnsOf [⟨"body", "integer", "YES", none, 0⟩] = [] := by
  constructor
  · rfl
  · rfl

/-- C8, corrected: a column name is in `searchableColumns` iff some
column of that name has a text-like declared type (`text`,
`character varying`, `varchar`, `json`, `jsonb`) or a name containing one
of the five substrings `title`, `name`, `content`, `description`,
`excerpt` — `body` and `text` are not in the discovery-time set. -/
theorem searchableColumnsOf_spec (cols : List ColumnInfo) (s : String) :
    s ∈ searchableColumnsOf cols ↔
      ∃ col, col ∈ cols ∧ col.column_name = s ∧
        codeSearchable col = true := by
  have hpred : ∀ col : ColumnInfo,
      isSearchableColumn col = codeSearchable col := by
    intro col
    simp [isSearchableColumn, codeSearchable, Bool.or_assoc]
  unfold searchableColumnsOf
  rw [List.mem_map]
  constructor
  · rintro ⟨col, hmem, rfl⟩
    rw [List.mem_filter] at hmem
    exact ⟨col, hmem.1, rfl, (hpred col) ▸ hmem.2⟩
  · rintro ⟨col, hmem, rfl, hsat⟩
    exact ⟨col, List.mem_filter.mpr ⟨hmem, (hpred col) ▸ hsat⟩, rfl⟩

/-! ## Claim C9 — table ranking: lemmas on the stable sort -/

theorem mem_jsInsert {cmp : α → α → Int} {x y : α} :
    ∀ {l : List α}, x ∈ jsInsert cmp y l ↔ x = y ∨ x ∈ l
  | [] => by simp [jsInsert]
  | z :: zs => by
    rw [jsInsert]
    split
    · simp only [List.mem_cons, mem_jsInsert (l := zs)]
      tauto
    · exact List.mem_cons

theorem mem_jsSort {cmp : α → α → Int} {x : α} :
    ∀ {l : List α}, x ∈ jsSort cmp l ↔ x ∈ l
  | [] => by simp [jsSort]
  | z :: zs => by
    show x ∈ jsInsert cmp z (jsSort cmp zs) ↔ _
    rw [mem_jsInsert, mem_jsSort (l := zs)]
    simp

theorem pairwise_jsInsert_score (x : String × Nat) :
    ∀ l : List (String × Nat),
      l.Pairwise (fun a b => b.2 ≤ a.2) →
      (jsInsert scoreCmp x l).Pairwise (fun a b => b.2 ≤ a.2)
  | [], _ => by simp [jsInsert]
  | y :: ys, h => by
    rw [List.pairwise_cons] at h
    obtain ⟨hy, hys⟩ := h
    rw [jsInsert]
    split
    · next hcmp =>
      have hxy : x.2 < y.2 := by
        simp only [scoreCmp] at hcmp
        omega
      rw [List.pairwise_cons]
      refine ⟨fun z hz => ?_, pairwise_jsInsert_score x ys hys⟩
      rcases mem_jsInsert.mp hz with rfl | hz'
      · omega
      · exact hy z hz'
    · next hcmp =>
      have hyx : y.2 ≤ x.2 := by
        simp only [scoreCmp, not_lt] at hcmp
        omega
      rw [List.pairwise_cons]
      refine ⟨fun z hz => ?_, List.pairwise_cons.mpr ⟨hy, hys⟩⟩
      rcases List.mem_cons.mp hz with rfl | hz'
      · exact hyx
      · exact le_trans (hy z hz') hyx

theorem pairwise_jsSort_score :
    ∀ l : List (String × Nat),
      (jsSort scoreCmp l).Pairwise (fun a b => b.2 ≤ a.2)
  | [] => by simp [jsSort]
  | x :: xs =>
    pairwise_jsInsert_score x (jsSort scoreCmp xs)
      (pairwise_jsSort_score xs)

theorem filter_jsInsert_score (s : Nat) (x : String × Nat) :
    ∀ l : List (String × Nat),
      (jsInsert scoreCmp x l).filter (fun p => p.2 = s) =
        if x.2 = s then x :: l.filter (fun p => p.2 = s)
        else l.filter (fun p => p.2 = s)
  | [] => by
    by_cases hx : x.2 = s <;> simp [jsInsert, hx]
  | y :: ys => by
    rw [jsInsert]
    split
    · next hcmp =>
      have hxy : x.2 < y.2 := by
        simp only [scoreCmp] at hcmp
        omega
      by_cases hx : x.2 = s
      · have hy2 : ¬(y.2 = s) := by omega
        simp [List.filter_cons, hy2, hx, filter_jsInsert_score s x ys]
      · simp [List.filter_cons, filter_jsInsert_score s x ys, hx]
    · by_cases hx : x.2 = s <;> simp [List.filter_cons, hx]

theorem filter_jsSort_score (s : Nat) :
    ∀ l : List (String × Nat),
      (jsSort scoreCmp l).filter (fun p => p.2 = s) =
        l.filter (fun p => p.2 = s)
  | [] => rfl
  | x :: xs => by
    show (jsInsert scoreCmp x (jsSort scoreCmp xs)).filter _ = _
    rw [filter_jsInsert_score, filter_jsSort_score s xs, List.filter_cons]
    by_cases hx : x.2 = s <;> simp [hx]

/-! ## Claim C9 — table ranking -/

/-- A minimal discovered table schema with one searchable text column
(`foo`) matching no content word, used to build equal-score ties. -/
def tsPlain : TableSchemaL :=
  mkTableSchema "x" [⟨"foo", "text", "YES", none, 0⟩]

/-- C9, counterexample: two tables with equal positive scores inserted in
the order `zzz`, `aaa` are returned in that (discovery) order — NOT
sorted by table name ascending as the claim's tie-break states. -/
theorem findRelevantTables_tie_not_name_ascending :
    findRelevantTables "general" ["xyz"]
        [("zzz", tsPlain), ("aaa", tsPlain)] = ["zzz", "aaa"] ∧
      (["zzz", "aaa"] : List String) ≠ ["aaa", "zzz"] := by
  constructor
  · rfl
  · decide

/-- C9, corrected: `findRelevantTables` excludes zero-score tables,
returns at most 5 names sorted by non-increasing score, and breaks score
ties *stably by the schema map's insertion (discovery) order* — not by
table name: within each score the ranked list preserves the input
order. -/
theorem findRelevantTables_spec (queryType : String)
    (terms : List String) (tables : List (String × TableSchemaL)) :
    (findRelevantTables queryType terms tables).length ≤ 5 ∧
    (∀ n ∈ findRelevantTables queryType terms tables,
      ∃ p, p ∈ tables ∧ p.1 = n ∧ 0 < scoreTable queryType terms p.1 p.2) ∧
    (rankedTables queryType terms tables).Pairwise
      (fun a b => b.2 ≤ a.2) ∧
    (∀ s, (rankedTables queryType terms tables).filter
        (fun p => p.2 = s) =
      (scoredTables queryType terms tables).filter (fun p => p.2 = s)) := by
  refine ⟨?_, ?_, pairwise_jsSort_score _, fun s => filter_jsSort_score s _⟩
  · simp only [findRelevantTables, List.length_map, List.length_take]
    omega
  · intro n hn
    simp only [findRelevantTables, List.mem_map] at hn
    obtain ⟨p, hp, rfl⟩ := hn
    have hp' : p ∈ rankedTables queryType terms tables :=
      List.mem_of_mem_take hp
    have hp'' : p ∈ scoredTables queryType terms tables :=
      mem_jsSort.mp hp'
    simp only [scoredTables, List.mem_filterMap] at hp''
    obtain ⟨q, hq, hqe⟩ := hp''
    by_cases hs : 0 < scoreTable queryType terms q.1 q.2
    · rw [if_pos hs] at hqe
      obtain rfl := Option.some.inj hqe
      exact ⟨q, hq, rfl, hs⟩
    · rw [if_neg hs] at hqe
      exact absurd hqe (Option.noConfusion)

/-- C9, witness: the corrected theorem applied to the two-table tie
instance. -/
theorem findRelevantTables_spec_witness :
    (findRelevantTables "general" ["xyz"]
      [("zzz", tsPlain), ("aaa", tsPlain)]).length ≤ 5 ∧
    (rankedTables "general" ["xyz"]
      [("zzz", tsPlain), ("aaa", tsPlain)]).Pairwise
        (fun a b => b.2 ≤ a.2) :=
  ⟨(findRelevantTables_spec "general" ["xyz"]
      [("zzz", tsPlain), ("aaa", tsPlain)]).1,
   (findRelevantTables_spec "general" ["xyz"]
      [("zzz", tsPlain), ("aaa", tsPlain)]).2.2.1⟩

/-! ## Claim C2 — getSchema on total catalog failure -/

/-- A cached one-table snapshot used in the C2 instances. -/
def cachedSchemaEx : DatabaseSchemaL :=
  { tables := [("t", tsPlain)], lastUpdated := 0 }

/-- C2, counterexample: with a non-empty cached snapshot whose TTL has
expired, a total catalog failure makes `getSchema` return a *fresh empty*
schema — not the previously cached snapshot — while the cache field
itself keeps the old snapshot. -/
theorem getSchema_total_failure_counterexample :
    (getSchema false 10000000 (some cachedSchemaEx) (.error "boom")
        (fun _ => none)).1.tables = [] ∧
      cachedSchemaEx.tables ≠ [] ∧
      (getSchema false 10000000 (some cachedSchemaEx) (.error "boom")
        (fun _ => none)).2 = some cachedSchemaEx := by
  refine ⟨rfl, ?_, rfl⟩
  decide

/-- C2, corrected: on total catalog-query failure (cache miss or
expired), `getSchema` returns a fresh empty schema — NOT the cached
snapshot — but the cached snapshot itself is left unchanged; and the
cache is never partially constructed: after any call it is either
unchanged or replaced wholesale by the complete newly discovered
schema. -/
theorem getSchema_failure_semantics (force : Bool) (now : Nat)
    (cache : Option DatabaseSchemaL) (err : String)
    (introspect : String → Option (List ColumnInfo)) :
    (schemaCacheValid cache force now = false →
      getSchema force now cache (.error err) introspect =
        ({ tables := [], lastUpdated := now }, cache)) ∧
    (getSchema force now cache (.error err) introspect).2 = cache ∧
    (∀ names,
      (getSchema force now cache (.ok names) introspect).2 = cache ∨
      (getSchema force now cache (.ok names) introspect).2 =
        some (getSchema force now cache (.ok names) introspect).1) := by
  refine ⟨?_, ?_, ?_⟩
  · intro hvalid
    rcases cache with _ | c
    · simp [getSchema]
    · simp only [schemaCacheValid] at hvalid
      simp [getSchema, hvalid]
  · rcases cache with _ | c
    · simp [getSchema]
    · by_cases hv :
        (!force && decide (now - c.lastUpdated < cacheExpiryMs)) = true
      · simp [getSchema, hv]
      · simp only [Bool.not_eq_true] at hv
        simp [getSchema, hv]
  · intro names
    rcases cache with _ | c
    · right
      simp [getSchema]
    · by_cases hv :
        (!force && decide (now - c.lastUpdated < cacheExpiryMs)) = true
      · left
        simp [getSchema, hv]
      · right
        simp only [Bool.not_eq_true] at hv
        simp [getSchema, hv]

/-- C2, witness: the corrected theorem's failure clause applied to the
expired one-table cache, hypotheses discharged by evaluation. -/
theorem getSchema_failure_semantics_witness :
    getSchema false 10000000 (some cachedSchemaEx) (.error "boom")
        (fun _ => none) =
      ({ tables := [], lastUpdated := 10000000 }, some cachedSchemaEx) :=
  (getSchema_failure_semantics false 10000000 (some cachedSchemaEx)
    "boom" (fun _ => none)).1 (by decide)

/-! ## Claim C3 — retry semantics -/

/-- The one-step unfolding of the retry loop (its well-founded recursion
does not reduce definitionally). -/
theorem executeSearchWithRetry_eq
    (search : Nat → Except JsErr (List QueryResultL)) (a : Nat) :
    executeSearchWithRetry search a =
      match search a with
      | .ok rs => { result := .ok rs, attempts := a, delays := [] }
      | .error e =>
        if isRecoverableError (classifyError e) ∧ a < retryAttempts then
          { result := (executeSearchWithRetry search (a + 1)).result,
            attempts := (executeSearchWithRetry search (a + 1)).attempts,
            delays := getRetryDelay (classifyError e) a ::
              (executeSearchWithRetry search (a + 1)).delays }
        else { result := .error e, attempts := a, delays := [] } := by
  rw [executeSearchWithRetry]

/-- A per-table result carrying a recoverable (network) error message and
no rows, as `executeSearch` produces when a table search throws. -/
def qrNetworkError : QueryResultL :=
  { data := [], tableName := "t", searchTermsUsed := ["x"],
    columnsSearched := [], executionTimeMs := 0,
    error := some "network failure" }

/-- A per-table result with one row. -/
def qrWithRow : QueryResultL :=
  { data := [{ fields := [("id", "r1")] }], tableName := "t",
    searchTermsUsed := ["x"], columnsSearched := ["c"],
    executionTimeMs := 0 }

/-- A search behaviour whose first attempt *returns* (does not throw) a
result set in which every per-table result carries the network error, and
whose second attempt would return a row. -/
def flakySearch (n : Nat) : Except JsErr (List QueryResultL) :=
  if n = 1 then .ok [qrNetworkError] else .ok [qrWithRow]

/-- C3, counterexample: per-table recoverable errors never trigger the
retry loop.  With every attempt-1 per-table result carrying a recoverable
network error and no rows (and attempt 2 ready to return a row), the
search is NOT re-executed: the outcome is attempt 1's error-carrying
empty results, the attempt count stays 1 and nothing is slept — because
`executeSearchWithRetry` only retries a *thrown* error, and
`executeSearch` catches all per-table failures into result records. -/
theorem retry_ignores_per_table_errors :
    (executeSearchWithRetry flakySearch 1).result = .ok [qrNetworkError] ∧
    (executeSearchWithRetry flakySearch 1).attempts = 1 ∧
    (executeSearchWithRetry flakySearch 1).delays = [] ∧
    isRecoverableError (classifyError ⟨none, qrNetworkError.error⟩) =
      true ∧
    qrNetworkError.data = [] ∧
    flakySearch 2 = .ok [qrWithRow] ∧
    qrWithRow.data ≠ [] := by
  have hmain : executeSearchWithRetry flakySearch 1 =
      { result := .ok [qrNetworkError], attempts := 1, delays := [] } := by
    rw [executeSearchWithRetry_eq]
    rfl
  rw [hmain]
  exact ⟨rfl, rfl, rfl, by decide, rfl, rfl, by decide⟩

/-- C3, corrected: the retry loop re-executes the search only when
`executeSearch` *throws* an exception that classifies as recoverable —
never because per-table results carry (recoverable) error records, since
`executeSearch` is total.  A thrown error that classifies as network on
attempt 1 followed by success yields the rows after exactly 2 attempts
with `getRetryDelay(error, 1)` slept once, and a non-recoverable
(e.g. permission) thrown error is rethrown with the attempt count
staying 1. -/
theorem executeSearchWithRetry_semantics :
    (∀ (search' : Nat → List QueryResultL) (a : Nat),
      executeSearchWithRetry (fun n => .ok (search' n)) a =
        { result := .ok (search' a), attempts := a, delays := [] }) ∧
    (∀ (tables : List (String × TableSchemaL)) (dbOf : String → List Row)
        (terms : List String) (queryType : String)
        (strat : SearchStrategyL) (a : Nat),
      executeSearchWithRetry
          (fun _ => .ok (executeSearch tables dbOf terms queryType strat))
          a =
        { result := .ok (executeSearch tables dbOf terms queryType strat),
          attempts := a, delays := [] }) ∧
    (∀ (e : JsErr) (rs : List QueryResultL),
      isRecoverableError (classifyError e) = true →
      executeSearchWithRetry
          (fun n => if n = 1 then .error e else .ok rs) 1 =
        { result := .ok rs, attempts := 2,
          delays := [getRetryDelay (classifyError e) 1] }) ∧
    (∀ e : JsErr,
      isRecoverableError (classifyError e) = false →
      executeSearchWithRetry (fun _ => .error e) 1 =
        { result := .error e, attempts := 1, delays := [] }) := by
  refine ⟨fun search' a => ?_, fun tables dbOf terms qt strat a => ?_,
    fun e rs h => ?_, fun e h => ?_⟩
  · rw [executeSearchWithRetry_eq]
  · rw [executeSearchWithRetry_eq]
  · have h13 : (1 : Nat) < retryAttempts := by decide
    simp [executeSearchWithRetry_eq, h, h13]
  · simp [executeSearchWithRetry_eq, h]

/-- C3, witness: the corrected theorem's thrown-error clauses applied to
a concrete network rejection (2 attempts, one delay slept) and a concrete
permission rejection (1 attempt, rethrown). -/
theorem executeSearchWithRetry_semantics_witness :
    executeSearchWithRetry
        (fun n => if n = 1 then .error ⟨none, some "network failure"⟩
          else .ok [qrWithRow]) 1 =
      { result := .ok [qrWithRow], attempts := 2,
        delays := [getRetryDelay
          (classifyError ⟨none, some "network failure"⟩) 1] } ∧
    executeSearchWithRetry (fun _ => .error ⟨some "42501", none⟩) 1 =
      { result := .error ⟨some "42501", none⟩, attempts := 1,
        delays := [] } :=
  ⟨executeSearchWithRetry_semantics.2.2.1 ⟨none, some "network failure"⟩
      [qrWithRow] (by decide),
   executeSearchWithRetry_semantics.2.2.2 ⟨some "42501", none⟩
      (by decide)⟩


/-! ## Claim C5 — merge: deduplication and the 25-row cap -/

theorem combineItems_length (qr : QueryResultL) :
    ∀ (items : List Row) (seen : List String) (acc : List CombinedItem),
      acc.length < 25 →
      (combineItems qr items seen acc).2.1.length ≤ 25 ∧
        ((combineItems qr items seen acc).2.2 = false →
          (combineItems qr items seen acc).2.1.length < 25)
  | [], seen, acc, hlt => by
    rw [combineItems]
    exact ⟨Nat.le_of_lt hlt, fun _ => hlt⟩
  | item :: rest, seen, acc, hlt => by
    rw [combineItems]
    split
    · split
      · next hge => exact absurd hge (by omega)
      · exact combineItems_length qr rest seen acc hlt
    · split
      · next hge =>
        refine ⟨by simp; omega, fun hfalse => by simp at hfalse⟩
      · next hlt2 =>
        apply combineItems_length qr rest
        simp only [List.length_append, List.length_singleton] at hlt2 ⊢
        omega

theorem combineOuter_length :
    ∀ (qrs : List QueryResultL) (seen : List String)
      (acc : List CombinedItem),
      acc.length < 25 → (combineOuter qrs seen acc).length ≤ 25
  | [], _, acc, hlt => by
    rw [combineOuter]
    exact Nat.le_of_lt hlt
  | qr :: rest, seen, acc, hlt => by
    rw [combineOuter]
    obtain ⟨h₁, h₂⟩ := combineItems_length qr qr.data seen acc hlt
    split
    · exact h₁
    · next hbroke =>
      exact combineOuter_length rest _ _ (h₂ (by simpa using hbroke))

/-- The dedup identifiers of the accumulated combined rows. -/
def keysOf (acc : List CombinedItem) : List String :=
  acc.map (fun c => dedupKey c.row)

theorem combineItems_nodup (qr : QueryResultL) :
    ∀ (items : List Row) (seen : List String) (acc : List CombinedItem),
      (keysOf acc).Nodup →
      (∀ k ∈ keysOf acc, seen.contains k = true) →
      (keysOf (combineItems qr items seen acc).2.1).Nodup ∧
        ∀ k ∈ keysOf (combineItems qr items seen acc).2.1,
          (combineItems qr items seen acc).1.contains k = true
  | [], seen, acc, hnd, hsub => by
    rw [combineItems]
    exact ⟨hnd, hsub⟩
  | item :: rest, seen, acc, hnd, hsub => by
    rw [combineItems]
    split
    · split
      · exact ⟨hnd, hsub⟩
      · exact combineItems_nodup qr rest seen acc hnd hsub
    · next hc =>
      have hnotin : dedupKey item ∉ keysOf acc := fun hk => hc (hsub _ hk)
      have hnd' : (keysOf (acc ++ [mkCombinedItem qr item])).Nodup := by
        simp only [keysOf, List.map_append, List.map_cons, List.map_nil,
          mkCombinedItem]
        rw [List.nodup_append]
        exact ⟨hnd, List.nodup_singleton _,
          fun k hk => by
            simp only [List.mem_singleton]
            exact fun hkk => hnotin (hkk ▸ hk)⟩
      have hsub' : ∀ k ∈ keysOf (acc ++ [mkCombinedItem qr item]),
          (dedupKey item :: seen).contains k = true := by
        intro k hk
        simp only [keysOf, List.map_append, List.map_cons, List.map_nil,
          mkCombinedItem, List.mem_append, List.mem_singleton] at hk
        rcases hk with hk | rfl
        · simp only [List.contains_cons, Bool.or_eq_true]
          exact Or.inr (hsub _ hk)
        · simp [List.contains_cons]
      split
      · exact ⟨hnd', hsub'⟩
      · exact combineItems_nodup qr rest _ _ hnd' hsub'

theorem combineOuter_nodup :
    ∀ (qrs : List QueryResultL) (seen : List String)
      (acc : List CombinedItem),
      (keysOf acc).Nodup →
      (∀ k ∈ keysOf acc, seen.contains k = true) →
      (keysOf (combineOuter qrs seen acc)).Nodup
  | [], _, acc, hnd, _ => by
    rw [combineOuter]
    exact hnd
  | qr :: rest, seen, acc, hnd, hsub => by
    rw [combineOuter]
    obtain ⟨hnd', hsub'⟩ := combineItems_nodup qr qr.data seen acc hnd hsub
    split
    · exact hnd'
    · exact combineOuter_nodup rest _ _ hnd' hsub'

/-- A row with only an explicit `id` field. -/
def rowId (i : String) : Row := { fields := [("id", i)] }

/-- A per-table result for the merge scenarios. -/
def qrTable (tn : String) (t : Nat) (rows : List Row) : QueryResultL :=
  { data := rows, tableName := tn, searchTermsUsed := ["x"],
    columnsSearched := [], executionTimeMs := t }

/-- Scenario: two per-table results of 3 rows each sharing the
identifiers `a` and `b`. -/
def dedupScenario : List QueryResultL :=
  [qrTable "t1" 1 [rowId "a", rowId "b", rowId "c"],
   qrTable "t2" 2 [rowId "a", rowId "b", rowId "d"]]

/-- Scenario: 30 rows with pairwise distinct identifiers across two
tables. -/
def capScenario : List QueryResultL :=
  [qrTable "t1" 1 ((List.range 15).map (fun i => rowId ("a" ++ toString i))),
   qrTable "t2" 2 ((List.range 15).map (fun i => rowId ("b" ++ toString i)))]

/-- C5: the merge deduplicates by the derived identifier (`id`, else
`uuid`, else the first 50 serialized characters) and caps the combined
list at 25: the combined list never exceeds 25 entries and its derived
identifiers are pairwise distinct; two 3-row results sharing 2
identifiers combine to exactly 4 entries, and 30 distinct rows combine
to exactly 25. -/
theorem combineQueryResults_dedup_and_cap :
    (∀ qrs : List QueryResultL, (combineQueryResults qrs).length ≤ 25) ∧
    (∀ qrs : List QueryResultL,
      (keysOf (combineQueryResults qrs)).Nodup) ∧
    (combineQueryResults dedupScenario).length = 4 ∧
    (combineQueryResults capScenario).length = 25 := by
  refine ⟨fun qrs => ?_, fun qrs => ?_, ?_, ?_⟩
  · unfold combineQueryResults
    split
    · simp
    · exact combineOuter_length _ [] [] (by decide)
  · unfold combineQueryResults
    split
    · simp [keysOf]
    · exact combineOuter_nodup _ [] []
        (by simp [keysOf]) (by simp [keysOf])
  · rfl
  · rfl

/-! ## Claim C4 — strategy cascade ordering -/

/-- C4, code bug: the claimed (and spec-intended) exact → fuzzy →
partial-word → broad cascade of `searchTable` cannot run at all.  Every
strategy's filter passes its term through
`DynamicQueryBuilder.sanitizeSearchTerm`, whose regular-expression
literal holds the character class `[;--]`; the class parses as the range
from `;` (code point 59) down to `-` (code point 45), which is out of
order, so the literal is an ECMAScript early SyntaxError and the
`DynamicQueryBuilder` module never evaluates — no search, exact or
otherwise, is ever executed by the program as written. -/
theorem dqbSanitizer_regex_is_syntax_error :
    jsClassRangeSyntaxError dqbSanitizerClassRange.1
        dqbSanitizerClassRange.2 = true ∧
      dqbSanitizerClassRange.1.toNat = 59 ∧
      dqbSanitizerClassRange.2.toNat = 45 := by
  decide

/-! ## Claim C6 — the orchestrator never propagates an exception -/

/-- C6: for every input query and every behaviour of the external
collaborators and the datastore — the analysis step, every per-attempt
search outcome and the summary completion may each reject with an
arbitrary exception — `smartSearch` resolves with a structured
`SmartSearchResult` and never rejects: the availability guard and the
catch block convert every failure into a structured result. -/
theorem smartSearch_total (env : OrchestratorEnv) (userQuery : String) :
    ∃ r : SmartSearchResultL, smartSearch env userQuery = Except.ok r := by
  unfold smartSearch
  split
  · exact ⟨createUnavailableResponse, rfl⟩
  · cases hbody : smartSearchBody env userQuery with
    | ok r => exact ⟨r, rfl⟩
    | error e => exact ⟨smartSearchCatch userQuery e, rfl⟩
